import Mathlib

/-!
Verification development for the Aura backend (job-matching / relocation
platform). The definitions below are a shallow embedding of the TypeScript
sources: Mongoose collections become association lists keyed by string ids,
`Date.now()` becomes an explicit `now : Nat` parameter, JS numbers become
rationals, and controller/manager functions that throw become `Except`.
-/

namespace Aura

/-! ## Data model: enums of the Mongoose schemas -/

/-- Enum of `applicationSchema.status` (src/models, application schema). -/
inductive AppStatus
  | pending | accepted | rejected | assessment_pending | assessment_completed
  | offer_sent | offer_accepted | documents_pending | visa_processing | completed
  deriving DecidableEq, Repr

/-- Enum of `applicationSchema.currentStep`. -/
inductive CurrentStep
  | application | assessment | document_submission | visa_processing
  | relocation | completed
  deriving DecidableEq, Repr

/-- Per-step enum of `applicationSchema.paymentStatus.*`. -/
inductive PayReq
  | not_required | required | pending | paid | failed
  deriving DecidableEq, Repr

/-- Enum of `paymentSchema.status`. -/
inductive PayStatus
  | pending | confirmed | failed | expired
  deriving DecidableEq, Repr

/-- The `paymentStatus` sub-document of an application. -/
structure StepPayments where
  assessment : PayReq
  document_processing : PayReq
  visa_processing : PayReq
  deriving DecidableEq, Repr

/-- The `paymentGates` sub-document of an application. -/
structure PaymentGates where
  assessmentBlocked : Bool
  documentSubmissionBlocked : Bool
  visaProcessingBlocked : Bool
  deriving DecidableEq, Repr

/-- An Application document (the fields touched by the workflow code). -/
structure Application where
  id : String
  userId : String
  jobId : String
  status : AppStatus
  currentStep : CurrentStep
  paymentStatus : StepPayments
  paymentGates : PaymentGates
  coverLetter : Option String
  assessmentScore : Option ℚ
  assessmentCompleted : Bool
  assessmentCutoffScore : Option ℚ
  assessmentPassed : Bool
  rejectionReason : Option String
  deriving DecidableEq, Repr

/-- A Job document (the field read by `processAssessmentCompletion`). -/
structure Job where
  id : String
  title : String
  assessmentCutoffScore : ℚ
  deriving DecidableEq, Repr

/-- A Payment document (paymentSchema in the models file).  `step` is kept as
a string, as in the schema enum
`application | assessment | interview | document_verification | visa_processing`
(the gateway additionally writes `document_processing`). -/
structure Payment where
  id : String
  userId : String
  applicationId : String
  step : String
  amount : ℚ
  currency : String
  cryptoAddress : String
  transactionHash : Option String
  status : PayStatus
  paymentMethod : String
  exchangeRate : ℚ
  usdAmount : ℚ
  walletAddress : String
  confirmations : ℕ
  requiredConfirmations : ℕ
  expiresAt : ℕ
  paidAt : Option ℕ
  deriving DecidableEq, Repr

/-- The `cryptoWallet` sub-document of a payment configuration. -/
structure CryptoWallet where
  address : String
  qrCode : Option String
  deriving DecidableEq, Repr

/-- A PaymentConfig document (paymentConfigSchema). -/
structure PaymentConfig where
  step : String
  amount : ℚ
  currency : String
  cryptoWallet : Option CryptoWallet
  isActive : Bool
  deriving DecidableEq, Repr

/-! ## Exam security manager (src/utils/examSecurity.ts)

The manager's `activeSessions : Map<string, ExamSession>` is modelled as an
association list with first-occurrence lookup and in-place first-occurrence
update, matching `Map.get` / mutation through the looked-up reference. -/

/-- Severity enum of a `SecurityViolation`. -/
inductive Severity
  | low | medium | high | critical
  deriving DecidableEq, Repr

/-- A `SecurityViolation` entry; `new Date()` timestamps become `ℕ`. -/
structure Violation where
  vtype : String
  timestamp : ℕ
  severity : Severity
  description : String
  deriving DecidableEq, Repr

/-- An `ExamSession` record. -/
structure ExamSession where
  userId : String
  examId : String
  startTime : ℕ
  violations : List Violation
  isActive : Bool
  browserFingerprint : String
  ipAddress : String
  userAgent : String
  deriving DecidableEq, Repr

/-- The manager's in-memory session map. -/
def ExamState := List (String × ExamSession)

instance : DecidableEq ExamState := by
  unfold ExamState
  infer_instance

/-- `activeSessions.get(sessionId)`. -/
def lookupSession (st : ExamState) (sessionId : String) : Option ExamSession :=
  (st.find? (fun kv => kv.1 == sessionId)).map (fun kv => kv.2)

/-- Mutation of the session object obtained from the map: the (first) entry
with this key is replaced, everything else is untouched. -/
def updateSession : ExamState → String → ExamSession → ExamState
  | [], _, _ => []
  | kv :: rest, sessionId, sess =>
    if kv.1 == sessionId then (kv.1, sess) :: rest
    else kv :: updateSession rest sessionId sess

/-- The per-severity counters built by `getViolationCounts`. -/
structure ViolationCounts where
  low : ℕ
  medium : ℕ
  high : ℕ
  critical : ℕ
  deriving DecidableEq, Repr

/-- `MAX_VIOLATIONS = (low: 10, medium: 5, high: 3, critical: 1)`. -/
def MAX_VIOLATIONS : ViolationCounts := ⟨10, 5, 3, 1⟩

/-- `getViolationCounts`: a `reduce` over the violation list incrementing the
counter of each violation's severity. -/
def getViolationCounts (violations : List Violation) : ViolationCounts :=
  violations.foldl
    (fun counts v =>
      match v.severity with
      | Severity.low => { counts with low := counts.low + 1 }
      | Severity.medium => { counts with medium := counts.medium + 1 }
      | Severity.high => { counts with high := counts.high + 1 }
      | Severity.critical => { counts with critical := counts.critical + 1 })
    ⟨0, 0, 0, 0⟩

mutual

/-- `recordViolation(sessionId, type, severity, description)`, returning the
updated map and the boolean the method returns.  `recordViolation` and
`terminateSession` call each other, so both take a fuel argument; the fuel-0
fallback is never reached semantically, because a nested `recordViolation`
always finds `isActive = false` and returns without further calls (proved
below as `recordViolationF_inactive`). -/
def recordViolationF : ℕ → ExamState → String → String → Severity → String → ℕ →
    ExamState × Bool
  | 0, st, _, _, _, _, _ => (st, false)
  | fuel + 1, st, sessionId, vtype, severity, description, now =>
    match lookupSession st sessionId with
    | none => (st, false)
    | some session =>
      if !session.isActive then (st, false)
      else
        let session1 :=
          { session with violations :=
              session.violations ++ [⟨vtype, now, severity, description⟩] }
        let st1 := updateSession st sessionId session1
        let violationCounts := getViolationCounts session1.violations
        if violationCounts.critical ≥ MAX_VIOLATIONS.critical ∨
            violationCounts.high ≥ MAX_VIOLATIONS.high ∨
            violationCounts.medium ≥ MAX_VIOLATIONS.medium ∨
            violationCounts.low ≥ MAX_VIOLATIONS.low then
          (terminateSessionF fuel st1 sessionId "Maximum violations exceeded" now, true)
        else
          (st1, false)

/-- `terminateSession(sessionId, reason)`: sets `isActive = false` and then
calls `recordViolation(sessionId, 'session_terminated', 'critical', reason)`. -/
def terminateSessionF : ℕ → ExamState → String → String → ℕ → ExamState
  | 0, st, _, _, _ => st
  | fuel + 1, st, sessionId, reason, now =>
    match lookupSession st sessionId with
    | none => st
    | some session =>
      let st1 := updateSession st sessionId { session with isActive := false }
      (recordViolationF fuel st1 sessionId "session_terminated" Severity.critical reason now).1

end

/-- `recordViolation` with enough fuel for its exact semantics: the one nested
call chain is recordViolation → terminateSession → recordViolation, and the
innermost call returns immediately on the inactive session. -/
def recordViolation (st : ExamState) (sessionId vtype : String) (severity : Severity)
    (description : String) (now : ℕ) : ExamState × Bool :=
  recordViolationF 2 st sessionId vtype severity description now

/-- `terminateSession` with enough fuel for its exact semantics. -/
def terminateSession (st : ExamState) (sessionId reason : String) (now : ℕ) : ExamState :=
  terminateSessionF 1 st sessionId reason now

/-! ## Workflow manager (src/utils/workflowManager.ts)

The database is a pair of collections; `Model.findById` is first-occurrence
lookup by id and `document.save()` replaces the stored document by id. -/

/-- `Payment.findById` / `Application.findById` style lookup. -/
def findPayment (payments : List Payment) (id : String) : Option Payment :=
  payments.find? (fun p => p.id == id)

/-- `Application.findById` lookup. -/
def findApplication (applications : List Application) (id : String) : Option Application :=
  applications.find? (fun a => a.id == id)

/-- `application.save()`: replace the stored document with the same id. -/
def saveApplication : List Application → Application → List Application
  | [], _ => []
  | a :: rest, app => if a.id == app.id then app :: rest else a :: saveApplication rest app

/-- `payment.save()`: replace the stored document with the same id. -/
def savePayment : List Payment → Payment → List Payment
  | [], _ => []
  | p :: rest, pm => if p.id == pm.id then pm :: rest else p :: savePayment rest pm

/-- The two collections read and written by `WorkflowManager`. -/
structure WorkflowDB where
  payments : List Payment
  applications : List Application
  deriving DecidableEq, Repr

/-- `WorkflowManager.processPaymentConfirmation(paymentId)`: requires the
payment to exist with status `confirmed`, then switches on `payment.step`
(`assessment` / `document_verification` / `visa_processing`; any other value
falls through the switch leaving the application unchanged) and saves. -/
def processPaymentConfirmation (db : WorkflowDB) (paymentId : String) :
    Except String WorkflowDB :=
  match findPayment db.payments paymentId with
  | none => Except.error "Payment not confirmed"
  | some payment =>
    if payment.status ≠ PayStatus.confirmed then Except.error "Payment not confirmed"
    else
      match findApplication db.applications payment.applicationId with
      | none => Except.error "Application not found"
      | some application =>
        let application :=
          if payment.step == "assessment" then
            { application with
                paymentStatus := { application.paymentStatus with assessment := PayReq.paid }
                paymentGates := { application.paymentGates with assessmentBlocked := false }
                status := AppStatus.assessment_pending }
          else if payment.step == "document_verification" then
            { application with
                paymentStatus :=
                  { application.paymentStatus with document_processing := PayReq.paid }
                paymentGates :=
                  { application.paymentGates with documentSubmissionBlocked := false }
                status := AppStatus.documents_pending
                currentStep := CurrentStep.document_submission }
          else if payment.step == "visa_processing" then
            { application with
                paymentStatus :=
                  { application.paymentStatus with visa_processing := PayReq.paid }
                paymentGates :=
                  { application.paymentGates with visaProcessingBlocked := false }
                status := AppStatus.visa_processing
                currentStep := CurrentStep.visa_processing }
          else application
        Except.ok { db with applications := saveApplication db.applications application }

/-- `WorkflowManager.processAssessmentCompletion(applicationId, score)`, acting
on an application whose `jobId` is populated with `job`.  JS
`score >= job.assessmentCutoffScore` becomes a decidable comparison on `ℚ`. -/
def processAssessmentCompletion (application : Application) (job : Job) (score : ℚ) :
    Application :=
  let application :=
    { application with
        assessmentScore := some score
        assessmentCompleted := true
        assessmentPassed := decide (score ≥ job.assessmentCutoffScore) }
  if application.assessmentPassed then
    { application with
        status := AppStatus.assessment_completed
        paymentStatus := { application.paymentStatus with document_processing := PayReq.required }
        paymentGates := { application.paymentGates with documentSubmissionBlocked := true } }
  else
    { application with status := AppStatus.rejected }

/-- The record returned by `WorkflowManager.checkPaymentGates`. -/
structure GateView where
  canTakeAssessment : Bool
  canSubmitDocuments : Bool
  canProcessVisa : Bool
  deriving DecidableEq, Repr

/-- `WorkflowManager.checkPaymentGates(applicationId)`: pure read returning the
three gate booleans inverted. -/
def checkPaymentGates (applications : List Application) (applicationId : String) :
    Except String GateView :=
  match findApplication applications applicationId with
  | none => Except.error "Application not found"
  | some application =>
    Except.ok
      ⟨!application.paymentGates.assessmentBlocked,
       !application.paymentGates.documentSubmissionBlocked,
       !application.paymentGates.visaProcessingBlocked⟩

/-! ## Application creation and withdrawal (controllers/applicationController.ts,
models application schema) -/

/-- Schema default of `applicationSchema.paymentStatus`: all `not_required`. -/
def defaultStepPayments : StepPayments :=
  ⟨PayReq.not_required, PayReq.not_required, PayReq.not_required⟩

/-- Schema default of `applicationSchema.paymentGates`: all blocked. -/
def defaultPaymentGates : PaymentGates := ⟨true, true, true⟩

/-- `Application.create` in `applyToJob` with the schema defaults applied
(the controller passes `status: 'pending'` and `currentStep: 'application'`
explicitly, which coincide with the schema defaults). -/
def mkApplication (id userId jobId : String) (coverLetter : Option String)
    (assessmentCutoffScore : Option ℚ) : Application :=
  { id := id
    userId := userId
    jobId := jobId
    status := AppStatus.pending
    currentStep := CurrentStep.application
    paymentStatus := defaultStepPayments
    paymentGates := defaultPaymentGates
    coverLetter := coverLetter
    assessmentScore := none
    assessmentCompleted := false
    assessmentCutoffScore := assessmentCutoffScore
    assessmentPassed := false
    rejectionReason := none }

/-- `withdrawApplication`: a `findOneAndUpdate` on the query
`(_id = id, userId = userId)` setting `status: 'rejected'` and
`rejectionReason: 'Withdrawn by applicant'`; returns the updated document, or
404 `Application not found` when no document matches.  The record is updated
in place, never deleted. -/
def withdrawApplication : List Application → String → String →
    Except String (List Application × Application)
  | [], _, _ => Except.error "Application not found"
  | a :: rest, id, userId =>
    if a.id == id && a.userId == userId then
      let a2 := { a with
                    status := AppStatus.rejected
                    rejectionReason := some "Withdrawn by applicant" }
      Except.ok (a2 :: rest, a2)
    else
      match withdrawApplication rest id userId with
      | Except.error e => Except.error e
      | Except.ok (rest2, app) => Except.ok (a :: rest2, app)

/-! ## Payment gateway (src/utils/paymentGateway.ts) and payment controller -/

/-- Currency union of `PaymentRequest.currency`. -/
inductive Currency
  | BTC | ETH | USDT | USDC
  deriving DecidableEq, Repr

/-- String form of a currency, as stored in a Payment document. -/
def currencyName : Currency → String
  | Currency.BTC => "BTC"
  | Currency.ETH => "ETH"
  | Currency.USDT => "USDT"
  | Currency.USDC => "USDC"

/-- `currency.toLowerCase()` as written into `paymentMethod`. -/
def currencyLower : Currency → String
  | Currency.BTC => "btc"
  | Currency.ETH => "eth"
  | Currency.USDT => "usdt"
  | Currency.USDC => "usdc"

/-- The static table `PaymentGateway.EXCHANGE_RATES`. -/
def EXCHANGE_RATES : Currency → ℚ
  | Currency.BTC => 45000
  | Currency.ETH => 2500
  | Currency.USDT => 1
  | Currency.USDC => 1

/-- Step union of `PaymentRequest.step`. -/
inductive GStep
  | assessment | document_processing | visa_processing
  deriving DecidableEq, Repr

/-- The nested ternary in `PaymentGateway.createPayment` that maps the request
step to the config step name (it is the identity on the three values). -/
def gstepName : GStep → String
  | GStep.assessment => "assessment"
  | GStep.document_processing => "document_processing"
  | GStep.visa_processing => "visa_processing"

/-- `PaymentRequest` of the gateway. -/
structure PaymentRequest where
  userId : String
  applicationId : String
  step : GStep
  currency : Currency
  deriving DecidableEq, Repr

/-- `PaymentResponse` returned by `PaymentGateway.createPayment`. -/
structure PaymentResponse where
  paymentId : String
  amount : ℚ
  currency : String
  walletAddress : String
  qrCode : Option String
  expiresAt : ℕ
  exchangeRate : ℚ
  usdAmount : ℚ
  deriving DecidableEq, Repr

/-- The collections used by the payment code. -/
structure GatewayState where
  configs : List PaymentConfig
  payments : List Payment
  deriving DecidableEq, Repr

/-- `PaymentConfig.findOne(\x7b step, isActive: true \x7d)`. -/
def findActiveConfig (configs : List PaymentConfig) (step : String) : Option PaymentConfig :=
  configs.find? (fun c => c.step == step && c.isActive)

namespace PaymentGateway

/-- `PaymentGateway.createPayment(request)`: looks up the active config for the
step, requires a configured wallet address, converts the USD fee with the
static rate table, and saves a new Payment (schema defaults give it status
`pending` and 0 confirmations).  There is no duplicate-payment check on this
path.  `newId` stands for the generated Mongo id and `now` for `Date.now()`. -/
def createPayment (s : GatewayState) (request : PaymentRequest) (newId : String)
    (now : ℕ) : Except String (GatewayState × PaymentResponse) :=
  match findActiveConfig s.configs (gstepName request.step) with
  | none => Except.error ("Payment configuration not found for step: " ++ gstepName request.step)
  | some config =>
    match config.cryptoWallet with
    | none => Except.error "Crypto wallet not configured for this payment step"
    | some wallet =>
      if wallet.address == "" then
        Except.error "Crypto wallet not configured for this payment step"
      else
        let exchangeRate := EXCHANGE_RATES request.currency
        let cryptoAmount := config.amount / exchangeRate
        let payment : Payment :=
          { id := newId
            userId := request.userId
            applicationId := request.applicationId
            step := gstepName request.step
            amount := cryptoAmount
            currency := currencyName request.currency
            cryptoAddress := wallet.address
            transactionHash := none
            status := PayStatus.pending
            paymentMethod := currencyLower request.currency
            exchangeRate := exchangeRate
            usdAmount := config.amount
            walletAddress := wallet.address
            confirmations := 0
            requiredConfirmations := if request.currency = Currency.BTC then 3 else 12
            expiresAt := now + 24 * 60 * 60 * 1000
            paidAt := none }
        Except.ok
          ({ s with payments := s.payments ++ [payment] },
           { paymentId := newId
             amount := cryptoAmount
             currency := currencyName request.currency
             walletAddress := wallet.address
             qrCode := wallet.qrCode
             expiresAt := payment.expiresAt
             exchangeRate := exchangeRate
             usdAmount := config.amount })

/-- The coarse hash shape check of `simulateBlockchainVerification`:
`transactionHash.length >= 64 && transactionHash.match(/^[a-fA-F0-9]+$/)`. -/
def isHexDigitChar (c : Char) : Bool :=
  (decide ('0' ≤ c) && decide (c ≤ '9')) ||
  (decide ('a' ≤ c) && decide (c ≤ 'f')) ||
  (decide ('A' ≤ c) && decide (c ≤ 'F'))

/-- The regex `^[a-fA-F0-9]+$`: non-empty and all characters hexadecimal. -/
def matchesHexShape (s : String) : Bool :=
  !s.toList.isEmpty && s.toList.all isHexDigitChar

/-- `simulateBlockchainVerification` without the simulated delay. -/
def simulateBlockchainVerification (transactionHash : String) : Bool :=
  decide (transactionHash.length ≥ 64) && matchesHexShape transactionHash

/-- `PaymentGateway.verifyPayment(paymentId, transactionHash)`: 404 on unknown
id; on a shape-valid hash marks the payment confirmed (hash, paidAt,
confirmations := requiredConfirmations) and returns true, otherwise returns
false without touching the record. -/
def verifyPayment (s : GatewayState) (paymentId transactionHash : String) (now : ℕ) :
    Except String (GatewayState × Bool) :=
  match findPayment s.payments paymentId with
  | none => Except.error "Payment not found"
  | some payment =>
    if simulateBlockchainVerification transactionHash then
      let payment2 :=
        { payment with
            transactionHash := some transactionHash
            status := PayStatus.confirmed
            paidAt := some now
            confirmations := payment.requiredConfirmations }
      Except.ok ({ s with payments := savePayment s.payments payment2 }, true)
    else
      Except.ok (s, false)

/-- `PaymentGateway.updateExchangeRates()`: the body only logs
`'Exchange rates updated'`; no stored state changes. -/
def updateExchangeRates (s : GatewayState) : GatewayState := s

end PaymentGateway

/-- `Application.findOne(\x7b _id: applicationId, userId \x7d)` used by the
payment controller. -/
def findOwnedApplication (applications : List Application) (id userId : String) :
    Option Application :=
  applications.find? (fun a => a.id == id && a.userId == userId)

/-- `createPayment` of the payment controller (routes `POST /payments/create`):
config lookup, ownership check, then the duplicate check
`Payment.findOne(\x7b applicationId, step, status: \x7b $in: ['pending', 'confirmed'] \x7d \x7d)`
which rejects with `Payment already exists for this step`; otherwise creates a
Payment priced with the externally fetched `cryptoPrice`. -/
def controllerCreatePayment (s : GatewayState) (applications : List Application)
    (userId applicationId step currency : String) (cryptoPrice : ℚ) (newId : String)
    (now : ℕ) : Except String (GatewayState × Payment) :=
  match findActiveConfig s.configs step with
  | none => Except.error "Payment configuration not found for this step"
  | some config =>
    match findOwnedApplication applications applicationId userId with
    | none => Except.error "Application not found"
    | some _ =>
      match s.payments.find?
          (fun p => p.applicationId == applicationId && p.step == step &&
            (p.status == PayStatus.pending || p.status == PayStatus.confirmed)) with
      | some _ => Except.error "Payment already exists for this step"
      | none =>
        let usdAmount := config.amount
        let cryptoAmount := usdAmount / cryptoPrice
        let payment : Payment :=
          { id := newId
            userId := userId
            applicationId := applicationId
            step := step
            amount := cryptoAmount
            currency := currency
            cryptoAddress := (config.cryptoWallet.map (fun w => w.address)).getD ""
            transactionHash := none
            status := PayStatus.pending
            paymentMethod := currency.toLower
            exchangeRate := cryptoPrice
            usdAmount := usdAmount
            walletAddress := (config.cryptoWallet.map (fun w => w.address)).getD ""
            confirmations := 0
            requiredConfirmations := if currency = "BTC" then 3 else 12
            expiresAt := now + 24 * 60 * 60 * 1000
            paidAt := none }
        Except.ok ({ s with payments := s.payments ++ [payment] }, payment)

/-- Count of non-terminal (`pending`/`confirmed`) payments for one
(application, step) pair. -/
def nonTerminalCount (payments : List Payment) (applicationId step : String) : ℕ :=
  (payments.filter
    (fun p => p.applicationId == applicationId && p.step == step &&
      (p.status == PayStatus.pending || p.status == PayStatus.confirmed))).length

/-! ## Helper lemmas -/

instance {ε α : Type} [DecidableEq ε] [DecidableEq α] : DecidableEq (Except ε α) :=
  fun a b =>
  match a, b with
  | Except.ok x, Except.ok y =>
    if h : x = y then Decidable.isTrue (by rw [h])
    else Decidable.isFalse (fun hc => h (Except.ok.inj hc))
  | Except.error x, Except.error y =>
    if h : x = y then Decidable.isTrue (by rw [h])
    else Decidable.isFalse (fun hc => h (Except.error.inj hc))
  | Except.ok _, Except.error _ => Decidable.isFalse (fun hc => Except.noConfusion hc)
  | Except.error _, Except.ok _ => Decidable.isFalse (fun hc => Except.noConfusion hc)

theorem findApplication_id {apps : List Application} {i : String} {app : Application}
    (h : findApplication apps i = some app) : app.id = i := by
  have hp := List.find?_some h
  simpa using hp

theorem saveApplication_of_find {apps : List Application} {i : String} {app : Application}
    (h : findApplication apps i = some app) : saveApplication apps app = apps := by
  induction apps with
  | nil => simp [findApplication] at h
  | cons a rest ih =>
    by_cases hid : a.id = i
    · have : findApplication (a :: rest) i = some a := by
        simp [findApplication, List.find?_cons_of_pos, hid]
      rw [this] at h
      cases h
      simp [saveApplication]
    · have hrest : findApplication rest i = some app := by
        simpa [findApplication, List.find?_cons_of_neg, hid] using h
      have happ : app.id = i := findApplication_id hrest
      have hne : (a.id == app.id) = false := by
        simp [happ]
        exact hid
      simp [saveApplication, hne, ih hrest]

theorem lookupSession_update_self {st : ExamState} {sid : String} {s0 : ExamSession}
    (h : lookupSession st sid = some s0) (s1 : ExamSession) :
    lookupSession (updateSession st sid s1) sid = some s1 := by
  induction st with
  | nil => simp [lookupSession] at h
  | cons kv rest ih =>
    by_cases hk : kv.1 = sid
    · simp [updateSession, lookupSession, hk]
    · have hrest : lookupSession rest sid = some s0 := by
        simpa [lookupSession, List.find?_cons_of_neg, hk] using h
      simpa [updateSession, lookupSession, hk, List.find?_cons_of_neg] using ih hrest

theorem updateSession_self {st : ExamState} {sid : String} {s0 : ExamSession}
    (h : lookupSession st sid = some s0) : updateSession st sid s0 = st := by
  induction st with
  | nil => simp [updateSession]
  | cons kv rest ih =>
    by_cases hk : kv.1 = sid
    · have : lookupSession (kv :: rest) sid = some kv.2 := by
        simp [lookupSession, List.find?_cons_of_pos, hk]
      rw [this] at h
      cases h
      simp [updateSession, hk]
      rw [← hk, Prod.mk.eta]
    · have hrest : lookupSession rest sid = some s0 := by
        simpa [lookupSession, List.find?_cons_of_neg, hk] using h
      simp [updateSession, hk, ih hrest]

/-! ## Claim theorems -/

/-- Claim C1: for every application with a populated job,
`processAssessmentCompletion` with `score >= job.assessmentCutoffScore` sets
`assessmentPassed = true` and status `assessment_completed` (never `rejected`)
and marks the document-processing payment `required`; with a score below the
cutoff it sets status `rejected`; the boundary `score == cutoff` passes. -/
theorem assessment_cutoff_inclusive_spec (application : Application) (job : Job) (score : ℚ) :
    (score ≥ job.assessmentCutoffScore →
      (processAssessmentCompletion application job score).assessmentPassed = true ∧
      (processAssessmentCompletion application job score).status =
        AppStatus.assessment_completed ∧
      (processAssessmentCompletion application job score).status ≠ AppStatus.rejected ∧
      (processAssessmentCompletion application job score).paymentStatus.document_processing =
        PayReq.required) ∧
    (score < job.assessmentCutoffScore →
      (processAssessmentCompletion application job score).status = AppStatus.rejected) ∧
    (processAssessmentCompletion application job job.assessmentCutoffScore).assessmentPassed =
      true := by
  refine ⟨fun h => ?_, fun h => ?_, ?_⟩
  · simp [processAssessmentCompletion, h]
  · simp [processAssessmentCompletion, not_le.mpr h]
  · simp [processAssessmentCompletion]

/-- Job used by concrete instances: cutoff score 70. -/
def jobW : Job := ⟨"j1", "Engineer", 70⟩

/-- A fresh application against `jobW`. -/
def appW : Application := mkApplication "a1" "u1" "j1" none (some 70)

/-- Witness for C1 at the spec's own example: cutoff 70, score 70 passes,
score 69 rejects. -/
theorem assessment_cutoff_inclusive_witness :
    (processAssessmentCompletion appW jobW 70).status = AppStatus.assessment_completed ∧
    (processAssessmentCompletion appW jobW 70).assessmentPassed = true ∧
    (processAssessmentCompletion appW jobW 69).status = AppStatus.rejected := by
  have h70 := assessment_cutoff_inclusive_spec appW jobW 70
  have h69 := assessment_cutoff_inclusive_spec appW jobW 69
  have hge : (70 : ℚ) ≥ jobW.assessmentCutoffScore := by norm_num [jobW]
  have hlt : (69 : ℚ) < jobW.assessmentCutoffScore := by norm_num [jobW]
  exact ⟨(h70.1 hge).2.1, (h70.1 hge).1, h69.2.1 hlt⟩

/-- Claim C10: every newly created Application starts with status `pending`,
currentStep `application`, all three paymentStatus entries `not_required` and
all three gate flags `true`; hence `checkPaymentGates` on a fresh application
answers `false` for all three abilities. -/
theorem fresh_application_defaults_spec (id userId jobId : String)
    (coverLetter : Option String) (cutoff : Option ℚ)
    (applications : List Application) (applicationId : String) :
    (mkApplication id userId jobId coverLetter cutoff).status = AppStatus.pending ∧
    (mkApplication id userId jobId coverLetter cutoff).currentStep =
      CurrentStep.application ∧
    (mkApplication id userId jobId coverLetter cutoff).paymentStatus =
      ⟨PayReq.not_required, PayReq.not_required, PayReq.not_required⟩ ∧
    (mkApplication id userId jobId coverLetter cutoff).paymentGates = ⟨true, true, true⟩ ∧
    (findApplication applications applicationId =
        some (mkApplication id userId jobId coverLetter cutoff) →
      checkPaymentGates applications applicationId =
        Except.ok ⟨false, false, false⟩) := by
  refine ⟨rfl, rfl, rfl, rfl, fun h => ?_⟩
  simp [checkPaymentGates, h, mkApplication, defaultPaymentGates]

/-- Witness for C10 on a one-element collection holding `appW`. -/
theorem fresh_application_defaults_witness :
    checkPaymentGates [appW] "a1" = Except.ok ⟨false, false, false⟩ :=
  (fresh_application_defaults_spec "a1" "u1" "j1" none (some 70) [appW] "a1").2.2.2.2
    (by decide)

/-- The update object of `withdrawApplication`: status `rejected`, reason
`Withdrawn by applicant`. -/
def withdrawUpdate (a : Application) : Application :=
  { a with status := AppStatus.rejected, rejectionReason := some "Withdrawn by applicant" }

/-- Claim C9: `withdrawApplication` never deletes the Application record: on an
owned application it sets status `rejected` with reason
`Withdrawn by applicant`, every other field is unchanged, the record still
exists (same collection size, still found by the same query); an id that is
unknown or not owned by the caller fails with `Application not found` and the
only possible error is that one. -/
theorem withdraw_never_deletes_spec (apps : List Application) (id userId : String) :
    (findOwnedApplication apps id userId = none ↔
      withdrawApplication apps id userId = Except.error "Application not found") ∧
    (∀ e, withdrawApplication apps id userId = Except.error e →
      findOwnedApplication apps id userId = none) ∧
    (∀ app apps2 app2, findOwnedApplication apps id userId = some app →
      withdrawApplication apps id userId = Except.ok (apps2, app2) →
      app2.status = AppStatus.rejected ∧
      app2.rejectionReason = some "Withdrawn by applicant" ∧
      app2.id = app.id ∧ app2.userId = app.userId ∧ app2.jobId = app.jobId ∧
      app2.currentStep = app.currentStep ∧ app2.paymentStatus = app.paymentStatus ∧
      app2.paymentGates = app.paymentGates ∧ app2.coverLetter = app.coverLetter ∧
      app2.assessmentScore = app.assessmentScore ∧
      app2.assessmentCompleted = app.assessmentCompleted ∧
      app2.assessmentCutoffScore = app.assessmentCutoffScore ∧
      app2.assessmentPassed = app.assessmentPassed ∧
      findOwnedApplication apps2 id userId = some app2 ∧
      apps2.length = apps.length) := by
  induction apps with
  | nil =>
    refine ⟨by simp [findOwnedApplication, withdrawApplication], ?_, ?_⟩
    · intro e _
      simp [findOwnedApplication]
    · intro app apps2 app2 hfind
      simp [findOwnedApplication] at hfind
  | cons a rest ih =>
    by_cases hpred : (a.id == id && a.userId == userId) = true
    · have hfind : findOwnedApplication (a :: rest) id userId = some a := by
        simp [findOwnedApplication, List.find?_cons, hpred]
      have hw : withdrawApplication (a :: rest) id userId =
          Except.ok (withdrawUpdate a :: rest, withdrawUpdate a) := by
        simp [withdrawApplication, withdrawUpdate, hpred]
      refine ⟨⟨fun h => ?_, fun h => ?_⟩, fun e he => ?_, fun app apps2 app2 hf hok => ?_⟩
      · rw [hfind] at h
        cases h
      · rw [hw] at h
        cases h
      · rw [hw] at he
        cases he
      · rw [hfind] at hf
        cases hf
        rw [hw] at hok
        simp only [Except.ok.injEq, Prod.mk.injEq] at hok
        obtain ⟨rfl, rfl⟩ := hok
        refine ⟨rfl, rfl, rfl, rfl, rfl, rfl, rfl, rfl, rfl, rfl, rfl, rfl, rfl, ?_, rfl⟩
        simp [findOwnedApplication, List.find?_cons, withdrawUpdate, hpred]
    · have hpredf : (a.id == id && a.userId == userId) = false := by
        simpa using hpred
      have hfind : findOwnedApplication (a :: rest) id userId =
          findOwnedApplication rest id userId := by
        simp [findOwnedApplication, List.find?_cons, hpredf]
      obtain ⟨ih1, ih2, ih3⟩ := ih
      cases hwr : withdrawApplication rest id userId with
      | error e =>
        have hwcons : withdrawApplication (a :: rest) id userId = Except.error e := by
          simp [withdrawApplication, hpredf, hwr]
        have hnone : findOwnedApplication rest id userId = none := ih2 e hwr
        have hE : e = "Application not found" := by
          have h2 := ih1.mp hnone
          rw [hwr] at h2
          cases h2
          rfl
        refine ⟨?_, fun e2 _ => ?_, fun app apps2 app2 hf _ => ?_⟩
        · rw [hfind, hnone, hwcons, hE]
          exact ⟨fun _ => rfl, fun _ => rfl⟩
        · rw [hfind]
          exact hnone
        · rw [hfind, hnone] at hf
          cases hf
      | ok pr =>
        obtain ⟨rest2, app1⟩ := pr
        have hwcons : withdrawApplication (a :: rest) id userId =
            Except.ok (a :: rest2, app1) := by
          simp [withdrawApplication, hpredf, hwr]
        refine ⟨⟨fun h => ?_, fun h => ?_⟩, fun e he => ?_, fun app apps2 app2 hf hok => ?_⟩
        · rw [hfind] at h
          have h2 := ih1.mp h
          rw [hwr] at h2
          cases h2
        · rw [hwcons] at h
          cases h
        · rw [hwcons] at he
          cases he
        · rw [hfind] at hf
          rw [hwcons] at hok
          simp only [Except.ok.injEq, Prod.mk.injEq] at hok
          obtain ⟨rfl, rfl⟩ := hok
          obtain ⟨f1, f2, f3, f4, f5, f6, f7, f8, f9, f10, f11, f12, f13, hfound, hlen⟩ :=
            ih3 app rest2 app1 hf hwr
          refine ⟨f1, f2, f3, f4, f5, f6, f7, f8, f9, f10, f11, f12, f13, ?_, by simp [hlen]⟩
          simpa [findOwnedApplication, List.find?_cons, hpredf] using hfound

/-- The withdrawn form of `appW`. -/
def appW2 : Application := withdrawUpdate appW

/-- Witness for C9: withdrawing `appW` rejects it, keeps the record findable
and preserves the collection size. -/
theorem withdraw_never_deletes_witness :
    appW2.status = AppStatus.rejected ∧
    appW2.rejectionReason = some "Withdrawn by applicant" ∧
    findOwnedApplication [appW2] "a1" "u1" = some appW2 ∧
    ([appW2] : List Application).length = ([appW] : List Application).length := by
  obtain ⟨-, -, h3⟩ := withdraw_never_deletes_spec [appW] "a1" "u1"
  obtain ⟨g1, g2, -, -, -, -, -, -, -, -, -, -, -, gf, gl⟩ :=
    h3 appW [appW2] appW2 (by decide) (by decide)
  exact ⟨g1, g2, gf, gl⟩

/-! ## Payment confirmation theorems -/

/-- The `assessment` case of the confirmation switch. -/
def confirmAssessmentUpdate (app : Application) : Application :=
  { app with
      paymentStatus := { app.paymentStatus with assessment := PayReq.paid }
      paymentGates := { app.paymentGates with assessmentBlocked := false }
      status := AppStatus.assessment_pending }

/-- The `document_verification` case of the confirmation switch. -/
def confirmDocumentUpdate (app : Application) : Application :=
  { app with
      paymentStatus := { app.paymentStatus with document_processing := PayReq.paid }
      paymentGates := { app.paymentGates with documentSubmissionBlocked := false }
      status := AppStatus.documents_pending
      currentStep := CurrentStep.document_submission }

/-- The `visa_processing` case of the confirmation switch. -/
def confirmVisaUpdate (app : Application) : Application :=
  { app with
      paymentStatus := { app.paymentStatus with visa_processing := PayReq.paid }
      paymentGates := { app.paymentGates with visaProcessingBlocked := false }
      status := AppStatus.visa_processing
      currentStep := CurrentStep.visa_processing }

/-- Claim C3: `processPaymentConfirmation` throws unless the payment exists
with status `confirmed` (and its application exists); for a confirmed payment
it advances the application per the fixed step table, and any step outside the
three known values is a silent no-op leaving the database unchanged. -/
theorem payment_confirmation_table_spec (db : WorkflowDB) (paymentId : String) :
    (findPayment db.payments paymentId = none →
      processPaymentConfirmation db paymentId = Except.error "Payment not confirmed") ∧
    (∀ p, findPayment db.payments paymentId = some p → p.status ≠ PayStatus.confirmed →
      processPaymentConfirmation db paymentId = Except.error "Payment not confirmed") ∧
    (∀ p, findPayment db.payments paymentId = some p → p.status = PayStatus.confirmed →
      findApplication db.applications p.applicationId = none →
      processPaymentConfirmation db paymentId = Except.error "Application not found") ∧
    (∀ p app, findPayment db.payments paymentId = some p → p.status = PayStatus.confirmed →
      findApplication db.applications p.applicationId = some app →
      (p.step = "assessment" →
        processPaymentConfirmation db paymentId = Except.ok
          { db with applications :=
              saveApplication db.applications (confirmAssessmentUpdate app) }) ∧
      (p.step = "document_verification" →
        processPaymentConfirmation db paymentId = Except.ok
          { db with applications :=
              saveApplication db.applications (confirmDocumentUpdate app) }) ∧
      (p.step = "visa_processing" →
        processPaymentConfirmation db paymentId = Except.ok
          { db with applications :=
              saveApplication db.applications (confirmVisaUpdate app) }) ∧
      (p.step ≠ "assessment" → p.step ≠ "document_verification" →
        p.step ≠ "visa_processing" →
        processPaymentConfirmation db paymentId = Except.ok db)) := by
  refine ⟨?_, ?_, ?_, ?_⟩
  · intro h
    simp [processPaymentConfirmation, h]
  · intro p hp hst
    simp [processPaymentConfirmation, hp, hst]
  · intro p hp hst happ
    simp [processPaymentConfirmation, hp, hst, happ]
  · intro p app hp hst happ
    refine ⟨fun hs => ?_, fun hs => ?_, fun hs => ?_, fun h1 h2 h3 => ?_⟩
    · simp [processPaymentConfirmation, hp, hst, happ, hs, confirmAssessmentUpdate]
    · simp [processPaymentConfirmation, hp, hst, happ, hs, confirmDocumentUpdate]
    · simp [processPaymentConfirmation, hp, hst, happ, hs, confirmVisaUpdate]
    · simp [processPaymentConfirmation, hp, hst, happ, h1, h2, h3,
        saveApplication_of_find happ]

/-- A confirmed assessment payment over `appW`. -/
def payW : Payment :=
  { id := "p1"
    userId := "u1"
    applicationId := "a1"
    step := "assessment"
    amount := 50
    currency := "USDT"
    cryptoAddress := "addr1"
    transactionHash := none
    status := PayStatus.confirmed
    paymentMethod := "usdt"
    exchangeRate := 1
    usdAmount := 50
    walletAddress := "addr1"
    confirmations := 12
    requiredConfirmations := 12
    expiresAt := 86400000
    paidAt := some 1 }

/-- Workflow database holding `payW` and `appW`. -/
def dbW : WorkflowDB := ⟨[payW], [appW]⟩

/-- Witness for C3: confirming the concrete assessment payment advances the
concrete application per the table. -/
theorem payment_confirmation_table_witness :
    processPaymentConfirmation dbW "p1" = Except.ok
      { dbW with applications :=
          saveApplication dbW.applications (confirmAssessmentUpdate appW) } := by
  obtain ⟨-, -, -, h4⟩ := payment_confirmation_table_spec dbW "p1"
  exact (h4 payW appW (by decide) rfl (by decide)).1 rfl

/-! ## Exam security theorems -/

/-- Unfolding of `recordViolation` at its fixed fuel. -/
theorem recordViolation_eq (st : ExamState) (sessionId vtype : String) (severity : Severity)
    (description : String) (now : ℕ) :
    recordViolation st sessionId vtype severity description now =
      match lookupSession st sessionId with
      | none => (st, false)
      | some session =>
        if !session.isActive then (st, false)
        else
          let session1 :=
            { session with violations :=
                session.violations ++ [⟨vtype, now, severity, description⟩] }
          let st1 := updateSession st sessionId session1
          let violationCounts := getViolationCounts session1.violations
          if violationCounts.critical ≥ MAX_VIOLATIONS.critical ∨
              violationCounts.high ≥ MAX_VIOLATIONS.high ∨
              violationCounts.medium ≥ MAX_VIOLATIONS.medium ∨
              violationCounts.low ≥ MAX_VIOLATIONS.low then
            (terminateSessionF 1 st1 sessionId "Maximum violations exceeded" now, true)
          else
            (st1, false) := rfl

/-- Unfolding of `terminateSession` at its fixed fuel: the nested
`recordViolation` call runs on a session whose `isActive` was just set to
false, so it contributes nothing. -/
theorem terminateSession_eq (st : ExamState) (sessionId reason : String) (now : ℕ) :
    terminateSession st sessionId reason now =
      match lookupSession st sessionId with
      | none => st
      | some session =>
        (recordViolationF 0 (updateSession st sessionId { session with isActive := false })
          sessionId "session_terminated" Severity.critical reason now).1 := rfl

/-- A nested `recordViolation` on an inactive session is a no-op at any fuel:
the fuel cut-off of the model is therefore never semantically reached. -/
theorem recordViolationF_succ_inactive (fuel : ℕ) (st : ExamState)
    (sessionId vtype : String) (severity : Severity) (description : String) (now : ℕ)
    (session : ExamSession) (h : lookupSession st sessionId = some session)
    (hin : session.isActive = false) :
    recordViolationF (fuel + 1) st sessionId vtype severity description now = (st, false) := by
  simp [recordViolationF, h, hin]

/-- Claim C6 (as the code behaves): once a session is inactive, every further
`recordViolation` returns `false` and leaves the whole state unchanged (so
`isActive` never returns to `true`), and `terminateSession` can be called
again without error and without changing the state. -/
theorem exam_termination_monotone_idempotent_spec (st : ExamState) (sessionId : String)
    (session : ExamSession) (h : lookupSession st sessionId = some session)
    (hin : session.isActive = false) :
    (∀ vtype severity description now,
      recordViolation st sessionId vtype severity description now = (st, false)) ∧
    (∀ reason now, terminateSession st sessionId reason now = st) := by
  have hsess : ({ session with isActive := false } : ExamSession) = session := by
    cases session
    simp only [ExamSession.mk.injEq] at hin ⊢
    simp_all
  constructor
  · intro vtype severity description now
    rw [recordViolation]
    exact recordViolationF_succ_inactive 1 st sessionId vtype severity description now
      session h hin
  · intro reason now
    have h1 : updateSession st sessionId { session with isActive := false } = st := by
      rw [hsess]
      exact updateSession_self h
    rw [terminateSession_eq]
    simp only [h, recordViolationF]
    exact h1

/-- Session map with one active, violation-free session, used by the concrete
exam facts. -/
def examW : ExamState := [("sess1", ⟨"u1", "e1", 0, [], true, "fp", "ip", "ua"⟩)]

/-- State and result after a first high violation on `examW`. -/
def examRec1 : ExamState × Bool := recordViolation examW "sess1" "tab_switch" Severity.high "d1" 1

/-- State and result after a second high violation. -/
def examRec2 : ExamState × Bool :=
  recordViolation examRec1.1 "sess1" "tab_switch" Severity.high "d2" 2

/-- State and result after a third high violation. -/
def examRec3 : ExamState × Bool :=
  recordViolation examRec2.1 "sess1" "tab_switch" Severity.high "d3" 3

/-- Claim C5: on an active session, a `recordViolation` call that brings a
severity count to its ceiling (low 10, medium 5, high 3, critical 1) returns
true and leaves the session terminated; concretely, the third high-severity
violation terminates the session while the first two leave it active and
return false. -/
theorem exam_violation_threshold_spec :
    (∀ st sessionId vtype severity description now session,
      lookupSession st sessionId = some session →
      session.isActive = true →
      ((getViolationCounts
          (session.violations ++ [⟨vtype, now, severity, description⟩])).low = 10 ∨
       (getViolationCounts
          (session.violations ++ [⟨vtype, now, severity, description⟩])).medium = 5 ∨
       (getViolationCounts
          (session.violations ++ [⟨vtype, now, severity, description⟩])).high = 3 ∨
       (getViolationCounts
          (session.violations ++ [⟨vtype, now, severity, description⟩])).critical = 1) →
      (recordViolation st sessionId vtype severity description now).2 = true ∧
      (lookupSession (recordViolation st sessionId vtype severity description now).1
          sessionId).map ExamSession.isActive = some false) ∧
    examRec1.2 = false ∧
    (lookupSession examRec1.1 "sess1").map ExamSession.isActive = some true ∧
    examRec2.2 = false ∧
    (lookupSession examRec2.1 "sess1").map ExamSession.isActive = some true ∧
    examRec3.2 = true ∧
    (lookupSession examRec3.1 "sess1").map ExamSession.isActive = some false := by
  refine ⟨?_, by decide, by decide, by decide, by decide, by decide, by decide⟩
  intro st sessionId vtype severity description now session h hact hceil
  have hcond : (getViolationCounts
        (session.violations ++ [⟨vtype, now, severity, description⟩])).critical ≥
          MAX_VIOLATIONS.critical ∨
      (getViolationCounts
        (session.violations ++ [⟨vtype, now, severity, description⟩])).high ≥
          MAX_VIOLATIONS.high ∨
      (getViolationCounts
        (session.violations ++ [⟨vtype, now, severity, description⟩])).medium ≥
          MAX_VIOLATIONS.medium ∨
      (getViolationCounts
        (session.violations ++ [⟨vtype, now, severity, description⟩])).low ≥
          MAX_VIOLATIONS.low := by
    rcases hceil with hc | hc | hc | hc
    · right; right; right
      simp [MAX_VIOLATIONS, hc]
    · right; right; left
      simp [MAX_VIOLATIONS, hc]
    · right; left
      simp [MAX_VIOLATIONS, hc]
    · left
      simp [MAX_VIOLATIONS, hc]
  rw [recordViolation_eq, h]
  simp only [hact, Bool.not_true, Bool.false_eq_true, if_false]
  rw [if_pos hcond]
  refine ⟨rfl, ?_⟩
  have hl1 : lookupSession
      (updateSession st sessionId
        { session with violations :=
            session.violations ++ [⟨vtype, now, severity, description⟩] }) sessionId =
      some { session with violations :=
        session.violations ++ [⟨vtype, now, severity, description⟩] } :=
    lookupSession_update_self h _
  rw [hact] at hl1
  rw [show (1 : ℕ) = 0 + 1 from rfl, terminateSessionF]
  simp only [hl1, recordViolationF]
  simp [lookupSession_update_self hl1]

/-- Witness for C5: the third high violation on the concrete session, obtained
through the general threshold statement. -/
theorem exam_violation_threshold_witness :
    (recordViolation examRec2.1 "sess1" "tab_switch" Severity.high "d3" 3).2 = true ∧
    (lookupSession (recordViolation examRec2.1 "sess1" "tab_switch" Severity.high "d3" 3).1
        "sess1").map ExamSession.isActive = some false := by
  exact exam_violation_threshold_spec.1 examRec2.1 "sess1" "tab_switch" Severity.high "d3" 3
    ⟨"u1", "e1", 0,
      [⟨"tab_switch", 1, Severity.high, "d1"⟩, ⟨"tab_switch", 2, Severity.high, "d2"⟩],
      true, "fp", "ip", "ua"⟩
    (by decide) (by decide) (by decide)

/-- Witness for C6 on a concrete inactive session. -/
theorem exam_termination_monotone_idempotent_witness :
    recordViolation [("sess1", ⟨"u1", "e1", 0, [], false, "fp", "ip", "ua"⟩)]
        "sess1" "tab_switch" Severity.high "d" 4 =
      ([("sess1", ⟨"u1", "e1", 0, [], false, "fp", "ip", "ua"⟩)], false) ∧
    terminateSession [("sess1", ⟨"u1", "e1", 0, [], false, "fp", "ip", "ua"⟩)]
        "sess1" "again" 5 =
      [("sess1", ⟨"u1", "e1", 0, [], false, "fp", "ip", "ua"⟩)] := by
  obtain ⟨h1, h2⟩ := exam_termination_monotone_idempotent_spec
    [("sess1", ⟨"u1", "e1", 0, [], false, "fp", "ip", "ua"⟩)] "sess1"
    ⟨"u1", "e1", 0, [], false, "fp", "ip", "ua"⟩ (by decide) (by decide)
  exact ⟨h1 "tab_switch" Severity.high "d" 4, h2 "again" 5⟩

/-! ## Payment gateway theorems -/

/-- An active assessment payment configuration with a configured wallet. -/
def cfgW : PaymentConfig := ⟨"assessment", 50, "USD", some ⟨"addr1", none⟩, true⟩

/-- Gateway state holding `cfgW` and the confirmed payment `payW`. -/
def gwsW : GatewayState := ⟨[cfgW], [payW]⟩

/-- The update `verifyPayment` saves on a shape-valid hash. -/
def confirmedUpdate (p : Payment) (transactionHash : String) (now : ℕ) : Payment :=
  { p with
      transactionHash := some transactionHash
      status := PayStatus.confirmed
      paidAt := some now
      confirmations := p.requiredConfirmations }

/-- Claim C7: `verifyPayment` fails with NotFound on an unknown id; an
existing payment is marked confirmed (hash, paidAt, confirmations :=
requiredConfirmations) exactly when the hash passes the coarse shape check,
and is left untouched (returning false) otherwise; the shape check holds iff
the hash is a hexadecimal string of length at least 64. -/
theorem verify_payment_shape_spec (s : GatewayState) (paymentId transactionHash : String)
    (now : ℕ) :
    (findPayment s.payments paymentId = none →
      PaymentGateway.verifyPayment s paymentId transactionHash now =
        Except.error "Payment not found") ∧
    (∀ p, findPayment s.payments paymentId = some p →
      (PaymentGateway.simulateBlockchainVerification transactionHash = true →
        PaymentGateway.verifyPayment s paymentId transactionHash now =
          Except.ok
            (⟨s.configs, savePayment s.payments (confirmedUpdate p transactionHash now)⟩,
             true)) ∧
      (PaymentGateway.simulateBlockchainVerification transactionHash = false →
        PaymentGateway.verifyPayment s paymentId transactionHash now =
          Except.ok (s, false))) ∧
    (PaymentGateway.simulateBlockchainVerification transactionHash = true ↔
      64 ≤ transactionHash.length ∧
        ∀ c ∈ transactionHash.toList, PaymentGateway.isHexDigitChar c = true) := by
  refine ⟨?_, ?_, ?_⟩
  · intro h
    simp [PaymentGateway.verifyPayment, h]
  · intro p hp
    refine ⟨fun hsim => ?_, fun hsim => ?_⟩
    · simp [PaymentGateway.verifyPayment, hp, hsim, confirmedUpdate]
    · simp [PaymentGateway.verifyPayment, hp, hsim]
  · constructor
    · intro h
      simp [PaymentGateway.simulateBlockchainVerification, PaymentGateway.matchesHexShape,
        List.all_eq_true] at h
      exact ⟨h.1, h.2.2⟩
    · rintro ⟨h1, h2⟩
      have hne : transactionHash.toList ≠ [] := by
        intro hc
        have hlen : transactionHash.length = 0 := by
          have := congrArg List.length hc
          simpa using this
        omega
      simp [PaymentGateway.simulateBlockchainVerification, PaymentGateway.matchesHexShape,
        List.all_eq_true, h1]
      exact ⟨hne, h2⟩

/-- A 64-character hexadecimal transaction hash. -/
def hash64 : String :=
  "aaaaaaaaaaaaaaaaaaaaaaaaaaaaaaaaaaaaaaaaaaaaaaaaaaaaaaaaaaaaaaaa"

/-- Witness for C7: the concrete confirmed update on a valid hash, and the
no-op on a short invalid hash. -/
theorem verify_payment_shape_witness :
    PaymentGateway.verifyPayment gwsW "p1" hash64 0 =
      Except.ok
        (⟨gwsW.configs, savePayment gwsW.payments (confirmedUpdate payW hash64 0)⟩,
         true) ∧
    PaymentGateway.verifyPayment gwsW "p1" "zz" 0 = Except.ok (gwsW, false) := by
  obtain ⟨-, h2, -⟩ := verify_payment_shape_spec gwsW "p1" hash64 0
  obtain ⟨-, h2b, -⟩ := verify_payment_shape_spec gwsW "p1" "zz" 0
  exact ⟨(h2 payW (by decide)).1 (by decide), (h2b payW (by decide)).2 (by decide)⟩

/-- Claim C8: the crypto amount of a created payment is the configured USD fee
divided by the static exchange rate of the requested currency, stored in the
record at creation (the new record is appended, earlier ones untouched), and
`updateExchangeRates` changes no stored payment. -/
theorem payment_amount_formula_stable_spec (s : GatewayState) (request : PaymentRequest)
    (newId : String) (now : ℕ) :
    (∀ s2 resp config,
      PaymentGateway.createPayment s request newId now = Except.ok (s2, resp) →
      findActiveConfig s.configs (gstepName request.step) = some config →
      s2.payments.dropLast = s.payments ∧
      (s2.payments.getLast?).map Payment.amount =
        some (config.amount / EXCHANGE_RATES request.currency) ∧
      (s2.payments.getLast?).map Payment.usdAmount = some config.amount ∧
      (s2.payments.getLast?).map Payment.exchangeRate =
        some (EXCHANGE_RATES request.currency) ∧
      resp.amount = config.amount / EXCHANGE_RATES request.currency ∧
      resp.usdAmount = config.amount ∧
      resp.exchangeRate = EXCHANGE_RATES request.currency) ∧
    EXCHANGE_RATES Currency.BTC = 45000 ∧ EXCHANGE_RATES Currency.ETH = 2500 ∧
    EXCHANGE_RATES Currency.USDT = 1 ∧ EXCHANGE_RATES Currency.USDC = 1 ∧
    (∀ t : GatewayState, (PaymentGateway.updateExchangeRates t).payments = t.payments) := by
  refine ⟨?_, rfl, rfl, rfl, rfl, fun t => rfl⟩
  intro s2 resp config hok hc
  unfold PaymentGateway.createPayment at hok
  simp only [hc] at hok
  cases hw : config.cryptoWallet with
  | none =>
    simp only [hw] at hok
    cases hok
  | some wallet =>
    simp only [hw] at hok
    by_cases haddr : (wallet.address == "") = true
    · rw [if_pos haddr] at hok
      cases hok
    · rw [if_neg haddr] at hok
      simp only [Except.ok.injEq, Prod.mk.injEq] at hok
      obtain ⟨h1, h2⟩ := hok
      subst h1 h2
      simp [List.dropLast_concat, List.getLast?_concat]

/-- The assessment payment request used by concrete gateway instances. -/
def reqW : PaymentRequest := ⟨"u1", "a1", GStep.assessment, Currency.USDT⟩

/-- The payment the gateway creates from `cfgW` and `reqW` at time 0. -/
def newPayW : Payment :=
  { id := "p2"
    userId := "u1"
    applicationId := "a1"
    step := "assessment"
    amount := 50 / 1
    currency := "USDT"
    cryptoAddress := "addr1"
    transactionHash := none
    status := PayStatus.pending
    paymentMethod := "usdt"
    exchangeRate := 1
    usdAmount := 50
    walletAddress := "addr1"
    confirmations := 0
    requiredConfirmations := 12
    expiresAt := 86400000
    paidAt := none }

/-- The gateway response paired with `newPayW`. -/
def respW : PaymentResponse := ⟨"p2", 50 / 1, "USDT", "addr1", none, 86400000, 1, 50⟩

/-- The state after creating `newPayW` on top of `gwsW`. -/
def gws2W : GatewayState := ⟨[cfgW], [payW, newPayW]⟩

/-- Witness for C8 at the concrete creation. -/
theorem payment_amount_formula_stable_witness :
    gws2W.payments.dropLast = gwsW.payments ∧
    (gws2W.payments.getLast?).map Payment.amount =
      some (cfgW.amount / EXCHANGE_RATES Currency.USDT) ∧
    (PaymentGateway.updateExchangeRates gws2W).payments = gws2W.payments := by
  obtain ⟨h1, -⟩ := payment_amount_formula_stable_spec gwsW reqW "p2" 0
  obtain ⟨g1, g2, -, -, -⟩ := h1 gws2W respW cfgW (by rfl) (by rfl)
  exact ⟨g1, g2, rfl⟩

/-- A pending assessment payment for application `a1`. -/
def cxPend : Payment := { payW with id := "p0", status := PayStatus.pending }

/-- Gateway state already holding the pending payment `cxPend`. -/
def cxState : GatewayState := ⟨[cfgW], [cxPend]⟩

/-- State after the gateway created a second payment on top of `cxState`. -/
def cxState2 : GatewayState := ⟨[cfgW], [cxPend, newPayW]⟩

/-- Claim C2 fails on the code: `PaymentGateway.createPayment` (the payment
path of the applications route) performs no duplicate check, so with a pending
payment already present for (a1, assessment) it happily creates a second one:
two non-terminal payments for the same pair. -/
theorem createPayment_duplicate_unchecked_cx :
    nonTerminalCount cxState.payments "a1" "assessment" = 1 ∧
    PaymentGateway.createPayment cxState reqW "p2" 0 = Except.ok (cxState2, respW) ∧
    nonTerminalCount cxState2.payments "a1" "assessment" = 2 := by
  refine ⟨by decide, by rfl, by decide⟩

/-- Claim C2 amended: the duplicate-payment rejection holds on the payment
controller path: when an active config and an owned application exist and some
payment for (applicationId, step) is still `pending` or `confirmed`, the
controller `createPayment` fails with the duplicate error and creates
nothing. -/
theorem controller_duplicate_check_spec (s : GatewayState)
    (applications : List Application)
    (userId applicationId step currency : String) (cryptoPrice : ℚ) (newId : String)
    (now : ℕ) (config : PaymentConfig) (app : Application) (p : Payment)
    (hc : findActiveConfig s.configs step = some config)
    (ha : findOwnedApplication applications applicationId userId = some app)
    (hp : p ∈ s.payments) (h1 : p.applicationId = applicationId) (h2 : p.step = step)
    (h3 : p.status = PayStatus.pending ∨ p.status = PayStatus.confirmed) :
    controllerCreatePayment s applications userId applicationId step currency cryptoPrice
      newId now = Except.error "Payment already exists for this step" := by
  have hpred : (fun q => q.applicationId == applicationId && q.step == step &&
      (q.status == PayStatus.pending || q.status == PayStatus.confirmed)) p = true := by
    rcases h3 with h | h <;> simp [h1, h2, h]
  cases hf : s.payments.find?
      (fun q => q.applicationId == applicationId && q.step == step &&
        (q.status == PayStatus.pending || q.status == PayStatus.confirmed)) with
  | none =>
    rw [List.find?_eq_none] at hf
    exact absurd hpred (by simpa using hf p hp)
  | some q =>
    simp [controllerCreatePayment, hc, ha, hf]

/-- Witness for the amended C2 at the concrete duplicate. -/
theorem controller_duplicate_check_witness :
    controllerCreatePayment cxState [appW] "u1" "a1" "assessment" "USDT" 1 "p9" 0 =
      Except.error "Payment already exists for this step" :=
  controller_duplicate_check_spec cxState [appW] "u1" "a1" "assessment" "USDT" 1 "p9" 0
    cfgW appW cxPend (by decide) (by decide) (by decide) (by decide) (by decide)
    (Or.inl (by decide))

/-- Claim C4 fails on the code: `terminateSession` sets `isActive = false`
first, so its nested `recordViolation` call returns before appending anything;
the closing violation entry the spec promises is never recorded.  At the
concrete failing input the violation list stays empty, and the call is
idempotent. -/
theorem terminateSession_appends_no_entry :
    terminateSession examW "sess1" "manual stop" 5 =
      [("sess1", ⟨"u1", "e1", 0, [], false, "fp", "ip", "ua"⟩)] ∧
    (lookupSession (terminateSession examW "sess1" "manual stop" 5) "sess1").map
      ExamSession.violations = some [] ∧
    terminateSession (terminateSession examW "sess1" "manual stop" 5) "sess1"
        "manual stop" 6 =
      terminateSession examW "sess1" "manual stop" 5 := by
  refine ⟨by decide, by decide, by decide⟩

end Aura
